import Mathlib

/-
Verification of the Windows registration shim of face_detection_tflite.

The repository's Windows sources are three files:
  - src/windows/face_detection_tflite_plugin.h        (class declaration)
  - src/windows/face_detection_tflite_plugin_c_api.cpp (C-ABI entry point)
  - src/windows/registration.cpp                       (C-ABI entry point)
The definitions below embed those files.  The bodies of
`FaceDetectionTflitePlugin::RegisterWithRegistrar` and
`FaceDetectionTflitePlugin::HandleMethodCall` are declared in the header but
not defined in the given files; the corresponding definitions are modelled
from the spec and say so in their doc comments.
-/

namespace FaceDetectionTflite

/-- The opaque registrar handle passed across the C ABI
(`FlutterDesktopPluginRegistrarRef`), identified by an abstract id. -/
structure FlutterDesktopPluginRegistrarRef where
  id : Nat
deriving DecidableEq, Repr

/-- The Windows-typed registrar (`flutter::PluginRegistrarWindows`); one
typed registrar wraps one opaque handle. -/
structure PluginRegistrarWindows where
  handle : FlutterDesktopPluginRegistrarRef
deriving DecidableEq, Repr

/-- `flutter::PluginRegistrarManager::GetInstance()
      ->GetRegistrar<flutter::PluginRegistrarWindows>(ref)`:
the singleton manager's lookup of the Windows-typed registrar for an opaque
handle.  It is a pure function of the handle: the singleton manager keeps one
typed registrar per handle, so looking the same handle up again yields the
same typed registrar. -/
def PluginRegistrarManager.GetRegistrar
    (ref : FlutterDesktopPluginRegistrarRef) : PluginRegistrarWindows :=
  ⟨ref⟩

/-- `flutter::EncodableValue`: the payload type carried on the method
channel (a representative closed set of encodable payloads). -/
inductive EncodableValue
  | null
  | boolVal (b : Bool)
  | intVal (n : Int)
  | stringVal (s : String)
deriving DecidableEq, Repr

/-- `flutter::MethodCall<flutter::EncodableValue>`: the inbound call
descriptor, carrying a method name and arguments
(face_detection_tflite_plugin.h line 25). -/
structure MethodCall where
  method_name : String
  arguments : EncodableValue
deriving DecidableEq, Repr

/-- `flutter::MethodResult<flutter::EncodableValue>`: the result sink's three
possible outcomes per call — success with a value, a typed error (code,
message, details), or "not implemented"
(face_detection_tflite_plugin.h line 26; spec section 7). -/
inductive MethodResultOutcome
  | success (value : EncodableValue)
  | error (code message : String) (details : EncodableValue)
  | notImplemented
deriving DecidableEq, Repr

/-- Whether an outcome reports success. -/
def MethodResultOutcome.isSuccess : MethodResultOutcome → Bool
  | .success _ => true
  | _ => false

/-- `face_detection_tflite::FaceDetectionTflitePlugin`
(face_detection_tflite_plugin.h lines 11-27): the class declares member
functions only and no data fields, so the type has no fields. -/
structure FaceDetectionTflitePlugin where
deriving DecidableEq, Repr

/-- Modelled from the spec: the dispatch body of
`FaceDetectionTflitePlugin::HandleMethodCall` is declared in
face_detection_tflite_plugin.h lines 24-26 but is not defined in the given
files.  Per the spec (sections 4.1 and 8.3), the handler dispatches by method
name — the dispatch table for recognized names is unspecified and is taken
here as the parameters `recognized` and `dispatch` — and a call whose method
name is not recognized resolves to the "not implemented" outcome.  The plugin
object, which has no fields, is returned unchanged alongside the outcome. -/
def FaceDetectionTflitePlugin.HandleMethodCall
    (recognized : List String)
    (dispatch : MethodCall → MethodResultOutcome)
    (p : FaceDetectionTflitePlugin) (call : MethodCall) :
    FaceDetectionTflitePlugin × MethodResultOutcome :=
  if call.method_name ∈ recognized then (p, dispatch call)
  else (p, MethodResultOutcome.notImplemented)

/-- Handling a whole sequence of inbound calls, threading the plugin object
through each `HandleMethodCall` invocation. -/
def handleSequence (recognized : List String)
    (dispatch : MethodCall → MethodResultOutcome)
    (p : FaceDetectionTflitePlugin) :
    List MethodCall → FaceDetectionTflitePlugin
  | [] => p
  | c :: cs =>
      handleSequence recognized dispatch
        (FaceDetectionTflitePlugin.HandleMethodCall recognized dispatch p c).1 cs

/-- Which callback a bound channel forwards inbound calls to:
`HandleMethodCall` of the plugin instance with the given index. -/
inductive HandlerRef
  | toHandleMethodCall (pluginIdx : Nat)
deriving DecidableEq, Repr

/-- A bound method channel: the typed registrar it is scoped to and the
handler installed on it.  The spec notes the channel's name is not shown in
the given files, so no name is recorded. -/
structure ChannelBinding where
  registrar : PluginRegistrarWindows
  handler : HandlerRef
deriving DecidableEq, Repr

/-- The registration effects visible to the host framework: the plugin
instances constructed so far and the channels bound so far. -/
structure RegState where
  instances : List FaceDetectionTflitePlugin
  channels : List ChannelBinding
deriving DecidableEq, Repr

/-- Modelled from the spec: the body of
`FaceDetectionTflitePlugin::RegisterWithRegistrar` is declared in
face_detection_tflite_plugin.h line 13 but is not defined in the given files.
Per the spec (section 4.1) it "constructs a plugin instance, creates a named
bidirectional method channel scoped to that registrar, and installs the
instance's handler as the channel's call-result callback": one new instance
is appended and one new channel bound to that instance's handler is
appended. -/
def FaceDetectionTflitePlugin.RegisterWithRegistrar
    (registrar : PluginRegistrarWindows) (s : RegState) : RegState :=
  { instances := s.instances ++ [⟨⟩]
    channels := s.channels ++
      [⟨registrar, HandlerRef.toHandleMethodCall s.instances.length⟩] }

/-- src/windows/face_detection_tflite_plugin_c_api.cpp lines 7-12:
`FaceDetectionTflitePluginCApiRegisterWithRegistrar` passes the typed
registrar obtained from the singleton manager directly to
`FaceDetectionTflitePlugin::RegisterWithRegistrar`. -/
def FaceDetectionTflitePluginCApiRegisterWithRegistrar
    (registrar : FlutterDesktopPluginRegistrarRef) (s : RegState) : RegState :=
  FaceDetectionTflitePlugin.RegisterWithRegistrar
    (PluginRegistrarManager.GetRegistrar registrar) s

/-- src/windows/registration.cpp lines 5-10:
`FaceDetectionTflitePluginRegisterWithRegistrar` first obtains the typed
registrar from the singleton manager into a local (`cpp_registrar`), then
calls `FaceDetectionTflitePlugin::RegisterWithRegistrar` on it. -/
def FaceDetectionTflitePluginRegisterWithRegistrar
    (registrar : FlutterDesktopPluginRegistrarRef) (s : RegState) : RegState :=
  let cpp_registrar := PluginRegistrarManager.GetRegistrar registrar
  FaceDetectionTflitePlugin.RegisterWithRegistrar cpp_registrar s

/-- The ways a C registration entry point could end: a normal `void` return
carrying only the updated registration state (no value is returned to the
caller), a process-fatal stop, or an error value reported to the caller. -/
inductive RegOutcome
  | completes (s : RegState)
  | fatal
  | errorValue (err : String)
deriving DecidableEq, Repr

/-- Whether a registration outcome reports an error value to the caller. -/
def RegOutcome.reportsError : RegOutcome → Bool
  | .errorValue _ => true
  | _ => false

/-- The run of the c_api entry point seen as an outcome: the C function
returns `void` with no throw or error branch
(face_detection_tflite_plugin_c_api.cpp lines 7-12), so the only outcome it
produces is normal completion carrying the registration effects. -/
def cApiRegisterRun (ref : FlutterDesktopPluginRegistrarRef) (s : RegState) :
    RegOutcome :=
  RegOutcome.completes (FaceDetectionTflitePluginCApiRegisterWithRegistrar ref s)

/-- The run of the registration.cpp entry point seen as an outcome: the C
function returns `void` with no throw or error branch (registration.cpp lines
5-10), so the only outcome it produces is normal completion carrying the
registration effects. -/
def registrationRun (ref : FlutterDesktopPluginRegistrarRef) (s : RegState) :
    RegOutcome :=
  RegOutcome.completes (FaceDetectionTflitePluginRegisterWithRegistrar ref s)

/-- An observable step taken by the shim code.  The last five constructors
are steps the given source could in principle take but never does. -/
inductive Event
  | getRegistrar (ref : FlutterDesktopPluginRegistrarRef)
      (typed : PluginRegistrarWindows)
  | callRegisterWithRegistrar (typed : PluginRegistrarWindows)
  | constructPlugin
  | bindChannel (typed : PluginRegistrarWindows) (handler : HandlerRef)
  | handleCall (method_name : String)
  | spawnThread
  | suspendStep
  | blockStep
  | retryStep
  | timeoutStep
deriving DecidableEq, Repr

/-- A step that is not synchronous straight-line execution on the calling
thread: spawning a thread, suspending, blocking, retrying, or timing out. -/
def Event.isAsync : Event → Bool
  | .spawnThread => true
  | .suspendStep => true
  | .blockStep => true
  | .retryStep => true
  | .timeoutStep => true
  | _ => false

/-- Steps of the c_api entry point
(face_detection_tflite_plugin_c_api.cpp lines 7-12): the singleton-manager
lookup of the typed registrar for the handle, then the single call to the
static registration method with that typed registrar.  Nothing else runs. -/
def cApiRegisterTrace (ref : FlutterDesktopPluginRegistrarRef) : List Event :=
  [Event.getRegistrar ref (PluginRegistrarManager.GetRegistrar ref),
   Event.callRegisterWithRegistrar (PluginRegistrarManager.GetRegistrar ref)]

/-- Steps of the registration.cpp entry point (registration.cpp lines 5-10):
the singleton-manager lookup of the typed registrar into the local
`cpp_registrar`, then the single call to the static registration method with
that typed registrar.  Nothing else runs. -/
def registrationTrace (ref : FlutterDesktopPluginRegistrarRef) : List Event :=
  let cpp_registrar := PluginRegistrarManager.GetRegistrar ref
  [Event.getRegistrar ref cpp_registrar,
   Event.callRegisterWithRegistrar cpp_registrar]

/-- Modelled from the spec: the steps taken inside
`FaceDetectionTflitePlugin::RegisterWithRegistrar` (body not among the given
files): construct the plugin instance, then bind the channel to that
instance's handler, in that order (spec section 4.1). -/
def registerWithRegistrarTrace (typed : PluginRegistrarWindows) (idx : Nat) :
    List Event :=
  [Event.constructPlugin,
   Event.bindChannel typed (HandlerRef.toHandleMethodCall idx)]

/-- Modelled from the spec: handling one inbound call is a single synchronous
handling step; the body of `HandleMethodCall` is not among the given files
and, per the spec (section 5), performs no asynchronous work. -/
def handleMethodCallTrace (call : MethodCall) : List Event :=
  [Event.handleCall call.method_name]

/-- The typed registrar forwarded to the static registration method in a
trace: the argument of the first `callRegisterWithRegistrar` event. -/
def forwardedRegistrar : List Event → Option PluginRegistrarWindows
  | [] => none
  | Event.callRegisterWithRegistrar r :: _ => some r
  | _ :: es => forwardedRegistrar es

/-- The member functions declared by class `FaceDetectionTflitePlugin` in
face_detection_tflite_plugin.h lines 11-27: the static registration method,
the default constructor, the virtual destructor, the copy constructor, the
copy assignment operator, and the method-call handler. -/
inductive MemberDecl
  | registerWithRegistrar
  | defaultConstructor
  | destructor
  | copyConstructor
  | copyAssignment
  | handleMethodCall
deriving DecidableEq, Repr

/-- Which declared members are `= delete`
(face_detection_tflite_plugin.h lines 19-21: "Disallow copy and assign."):
exactly the copy constructor and the copy assignment operator. -/
def MemberDecl.isDeleted : MemberDecl → Bool
  | .copyConstructor => true
  | .copyAssignment => true
  | _ => false

/-- Which declared members duplicate an existing plugin object: per their
C++ signatures, exactly those that take a `const FaceDetectionTflitePlugin&`
and replicate its state — the copy constructor and the copy assignment
operator.  The other members construct fresh, destroy, or handle calls. -/
def MemberDecl.copiesFrom : MemberDecl → Bool
  | .copyConstructor => true
  | .copyAssignment => true
  | _ => false

/-- C1: calling the registration entry point once on any registrar handle
constructs exactly one new plugin instance and binds exactly one new channel,
and the new channel's handler is the handler of that newly created instance:
no second instance and no duplicate channel arise from the single call. -/
theorem register_once_one_plugin_one_channel
    (ref : FlutterDesktopPluginRegistrarRef) (s : RegState) :
    (FaceDetectionTflitePluginRegisterWithRegistrar ref s).instances
        = s.instances ++ [⟨⟩]
    ∧ (FaceDetectionTflitePluginRegisterWithRegistrar ref s).channels
        = s.channels ++ [⟨PluginRegistrarManager.GetRegistrar ref,
            HandlerRef.toHandleMethodCall s.instances.length⟩]
    ∧ (FaceDetectionTflitePluginRegisterWithRegistrar ref s).instances.length
        = s.instances.length + 1
    ∧ (FaceDetectionTflitePluginRegisterWithRegistrar ref s).channels.length
        = s.channels.length + 1 := by
  refine ⟨rfl, rfl, ?_, ?_⟩ <;>
    simp [FaceDetectionTflitePluginRegisterWithRegistrar,
      FaceDetectionTflitePlugin.RegisterWithRegistrar]

/-- C2: on any registrar handle the c_api entry point performs, in order, the
singleton-manager lookup of the typed registrar and then the single call to
`FaceDetectionTflitePlugin::RegisterWithRegistrar` with that typed registrar;
that static method appends one plugin instance and appends one channel bound
to the new instance's method-handling callback. -/
theorem cApi_steps_lookup_then_register
    (ref : FlutterDesktopPluginRegistrarRef) (s : RegState) :
    cApiRegisterTrace ref
        = [Event.getRegistrar ref (PluginRegistrarManager.GetRegistrar ref),
           Event.callRegisterWithRegistrar
             (PluginRegistrarManager.GetRegistrar ref)]
    ∧ FaceDetectionTflitePluginCApiRegisterWithRegistrar ref s
        = FaceDetectionTflitePlugin.RegisterWithRegistrar
            (PluginRegistrarManager.GetRegistrar ref) s
    ∧ (FaceDetectionTflitePlugin.RegisterWithRegistrar
          (PluginRegistrarManager.GetRegistrar ref) s).instances
        = s.instances ++ [⟨⟩]
    ∧ (FaceDetectionTflitePlugin.RegisterWithRegistrar
          (PluginRegistrarManager.GetRegistrar ref) s).channels
        = s.channels ++ [⟨PluginRegistrarManager.GetRegistrar ref,
            HandlerRef.toHandleMethodCall s.instances.length⟩] :=
  ⟨rfl, rfl, rfl, rfl⟩

/-- C3: for any dispatch table and any inbound call whose method name is not
among the recognized names, `HandleMethodCall` reports the "not implemented"
outcome on the result sink and never reports success; being a total function,
it completes on every such call. -/
theorem unrecognized_method_not_implemented
    (recognized : List String) (dispatch : MethodCall → MethodResultOutcome)
    (p : FaceDetectionTflitePlugin) (call : MethodCall)
    (h : call.method_name ∉ recognized) :
    (FaceDetectionTflitePlugin.HandleMethodCall recognized dispatch p call).2
        = MethodResultOutcome.notImplemented
    ∧ (FaceDetectionTflitePlugin.HandleMethodCall recognized dispatch
          p call).2.isSuccess = false := by
  simp [FaceDetectionTflitePlugin.HandleMethodCall, h,
    MethodResultOutcome.isSuccess]

/-- Witness for C3 at a concrete unrecognized call. -/
theorem unrecognized_method_not_implemented_witness :
    ("unknownMethod" ∉ (["detectFaces"] : List String))
    ∧ ((FaceDetectionTflitePlugin.HandleMethodCall ["detectFaces"]
          (fun _ => MethodResultOutcome.success EncodableValue.null) ⟨⟩
          ⟨"unknownMethod", EncodableValue.null⟩).2
        = MethodResultOutcome.notImplemented
      ∧ (FaceDetectionTflitePlugin.HandleMethodCall ["detectFaces"]
          (fun _ => MethodResultOutcome.success EncodableValue.null) ⟨⟩
          ⟨"unknownMethod", EncodableValue.null⟩).2.isSuccess = false) :=
  ⟨by decide,
   unrecognized_method_not_implemented ["detectFaces"]
     (fun _ => MethodResultOutcome.success EncodableValue.null) ⟨⟩
     ⟨"unknownMethod", EncodableValue.null⟩ (by decide)⟩

/-- C4: on every registrar handle and state, each of the two C registration
entry points completes normally with the updated registration state — its
only outcome is the `void` completion — and reports no error value to its
caller: there is no failure or recovery path. -/
theorem registration_no_error_path
    (ref : FlutterDesktopPluginRegistrarRef) (s : RegState) :
    (∃ s', cApiRegisterRun ref s = RegOutcome.completes s')
    ∧ (∃ s', registrationRun ref s = RegOutcome.completes s')
    ∧ (cApiRegisterRun ref s).reportsError = false
    ∧ (registrationRun ref s).reportsError = false :=
  ⟨⟨_, rfl⟩, ⟨_, rfl⟩, rfl, rfl⟩

/-- C5: the plugin type declares no data fields, so any two plugin instances
are equal, and handling any sequence of method calls (for any dispatch table)
leaves the plugin instance unchanged: a call is a pure forwarding hop that
mutates nothing in the plugin object. -/
theorem plugin_stateless
    (recognized : List String) (dispatch : MethodCall → MethodResultOutcome)
    (p : FaceDetectionTflitePlugin) (calls : List MethodCall) :
    handleSequence recognized dispatch p calls = p
    ∧ ∀ q : FaceDetectionTflitePlugin, q = p := by
  constructor
  · induction calls generalizing p with
    | nil => rfl
    | cons c cs ih =>
        have hp : (FaceDetectionTflitePlugin.HandleMethodCall recognized
            dispatch p c).1 = p := by
          unfold FaceDetectionTflitePlugin.HandleMethodCall
          split <;> rfl
        calc handleSequence recognized dispatch p (c :: cs)
            = handleSequence recognized dispatch
                (FaceDetectionTflitePlugin.HandleMethodCall recognized
                  dispatch p c).1 cs := rfl
          _ = handleSequence recognized dispatch p cs := by rw [hp]
          _ = p := ih p
  · intro q
    cases q
    cases p
    rfl

/-- C6: `HandleMethodCall` takes exactly the call descriptor (beyond the
dispatch-table parameters and the plugin object it runs on) and yields an
outcome on the result sink that is necessarily one of success with a value, a
typed error, or "not implemented"; and every channel bound by registration
forwards to that single handler entry point of the new instance. -/
theorem handler_two_inputs_three_outcomes
    (recognized : List String) (dispatch : MethodCall → MethodResultOutcome)
    (p : FaceDetectionTflitePlugin) (call : MethodCall)
    (reg : PluginRegistrarWindows) (s : RegState) :
    ((∃ v, (FaceDetectionTflitePlugin.HandleMethodCall recognized dispatch
          p call).2 = MethodResultOutcome.success v)
      ∨ (∃ c m d, (FaceDetectionTflitePlugin.HandleMethodCall recognized
          dispatch p call).2 = MethodResultOutcome.error c m d)
      ∨ (FaceDetectionTflitePlugin.HandleMethodCall recognized dispatch
          p call).2 = MethodResultOutcome.notImplemented)
    ∧ (FaceDetectionTflitePlugin.RegisterWithRegistrar reg s).channels
        = s.channels ++ [⟨reg,
            HandlerRef.toHandleMethodCall s.instances.length⟩] := by
  refine ⟨?_, rfl⟩
  rcases ho : (FaceDetectionTflitePlugin.HandleMethodCall recognized dispatch
      p call).2 with v | ⟨c, m, d⟩ | _
  · exact Or.inl ⟨v, rfl⟩
  · exact Or.inr (Or.inl ⟨c, m, d, rfl⟩)
  · exact Or.inr (Or.inr rfl)

/-- C7: no step of the two C registration entry points, of the registration
body, or of the handler spawns a thread, suspends, blocks, retries, or times
out: every trace consists of synchronous straight-line steps only. -/
theorem shim_fully_synchronous
    (ref : FlutterDesktopPluginRegistrarRef) (call : MethodCall)
    (typed : PluginRegistrarWindows) (idx : Nat) :
    (cApiRegisterTrace ref).all (fun e => !e.isAsync) = true
    ∧ (registrationTrace ref).all (fun e => !e.isAsync) = true
    ∧ (registerWithRegistrarTrace typed idx).all (fun e => !e.isAsync) = true
    ∧ (handleMethodCallTrace call).all (fun e => !e.isAsync) = true := by
  refine ⟨?_, ?_, ?_, ?_⟩ <;>
    simp [cApiRegisterTrace, registrationTrace, registerWithRegistrarTrace,
      handleMethodCallTrace, Event.isAsync]

/-- C8: the two C registration entry points are equivalent on every registrar
handle: they produce the same registration state from every starting state
and perform the same steps (the singleton-manager lookup followed by the same
static-method call), so their registration effects are identical. -/
theorem entry_points_equivalent
    (ref : FlutterDesktopPluginRegistrarRef) (s : RegState) :
    FaceDetectionTflitePluginCApiRegisterWithRegistrar ref s
        = FaceDetectionTflitePluginRegisterWithRegistrar ref s
    ∧ cApiRegisterTrace ref = registrationTrace ref :=
  ⟨rfl, rfl⟩

/-- C9: every declared member of `FaceDetectionTflitePlugin` that duplicates
an existing instance (the copy constructor and the copy assignment operator)
is deleted, so no available operation produces a second instance by copying
one. -/
theorem no_copy_duplication
    (m : MemberDecl) (h : m.isDeleted = false) :
    m.copiesFrom = false := by
  cases m <;> simp_all [MemberDecl.isDeleted, MemberDecl.copiesFrom]

/-- Witness for C9 at a concrete non-deleted member. -/
theorem no_copy_duplication_witness :
    MemberDecl.defaultConstructor.isDeleted = false
    ∧ MemberDecl.defaultConstructor.copiesFrom = false :=
  ⟨rfl, no_copy_duplication MemberDecl.defaultConstructor rfl⟩

/-- C10: each C registration entry point is deterministic in its registrar
handle: the typed registrar it forwards to the static registration method is
exactly the singleton-manager lookup of the handle, and two invocations with
equal handles perform the same steps and produce the same state, with no
other input influencing what is passed on. -/
theorem registration_deterministic_in_handle
    (ref ref' : FlutterDesktopPluginRegistrarRef) (h : ref = ref') :
    forwardedRegistrar (cApiRegisterTrace ref)
        = some (PluginRegistrarManager.GetRegistrar ref)
    ∧ forwardedRegistrar (registrationTrace ref)
        = some (PluginRegistrarManager.GetRegistrar ref)
    ∧ cApiRegisterTrace ref = cApiRegisterTrace ref'
    ∧ registrationTrace ref = registrationTrace ref'
    ∧ ∀ s : RegState, FaceDetectionTflitePluginCApiRegisterWithRegistrar ref s
        = FaceDetectionTflitePluginCApiRegisterWithRegistrar ref' s := by
  subst h
  exact ⟨rfl, rfl, rfl, rfl, fun _ => rfl⟩

/-- Witness for C10 at a concrete handle. -/
theorem registration_deterministic_in_handle_witness :
    (⟨0⟩ : FlutterDesktopPluginRegistrarRef) = ⟨0⟩
    ∧ (forwardedRegistrar (cApiRegisterTrace ⟨0⟩)
        = some (PluginRegistrarManager.GetRegistrar ⟨0⟩)
      ∧ forwardedRegistrar (registrationTrace ⟨0⟩)
        = some (PluginRegistrarManager.GetRegistrar ⟨0⟩)
      ∧ cApiRegisterTrace ⟨0⟩ = cApiRegisterTrace ⟨0⟩
      ∧ registrationTrace ⟨0⟩ = registrationTrace ⟨0⟩
      ∧ ∀ s : RegState,
          FaceDetectionTflitePluginCApiRegisterWithRegistrar ⟨0⟩ s
            = FaceDetectionTflitePluginCApiRegisterWithRegistrar ⟨0⟩ s) :=
  ⟨rfl, registration_deterministic_in_handle ⟨0⟩ ⟨0⟩ rfl⟩

end FaceDetectionTflite
